import Mathlib

/-!
Verification of the Woods Hole water-clarity backend (src/server.ts) against
its natural-language specification.

The embedding follows the TypeScript source closely:

* JavaScript numbers are modelled as real numbers (`ℝ`); timestamps
  (`Date.getTime()` milliseconds) are modelled as `Int`; ISO timestamp
  strings that only serve as object keys are modelled by the millisecond
  value they denote (for the fixed-width ISO-8601 format produced by
  `Date.prototype.toISOString`, lexicographic string order coincides with
  numeric time order).
* JavaScript objects used as dictionaries are modelled as association
  lists; `obj[k]` becomes a lookup returning `Option`.
* The mutable module-level state (`weights`, `stormglassCache`) is passed
  explicitly and returned where the code mutates it.
* Network fetches are modelled by an explicit `FetchResult` argument
  distinguishing a successfully parsed response, a received-but-bad
  response and a rejection of the fetch promise itself before any
  response arrived — the wave gate's counter increment sits between the
  last two in the source.
-/

namespace Clarity

/-- Site record (server.ts lines 72-80); the display-only `name` and
`notes` fields are omitted, they are never read by any computation. -/
structure Site where
  id : String
  lat : ℝ
  lon : ℝ
  shorelineBearingTowardShore : ℝ
  exposure : ℝ

/-- Model weights for clarity scoring (server.ts lines 83-89). -/
structure Weights where
  wWind : ℝ
  wOnshore : ℝ
  wTideFlow : ℝ
  wRain : ℝ
  wSwell : ℝ

/-- The initial default weights (server.ts lines 205-211). -/
def defaultWeights : Weights :=
  { wWind := 2.0, wOnshore := 2.5, wTideFlow := 1.5, wRain := 1.0, wSwell := 1.0 }

/-- Normalized wind observation (server.ts lines 107-112). -/
structure WindData where
  t : Int
  wind_dir_deg : ℝ
  wind_speed_kt : ℝ
  gust_kt : Option ℝ

/-- Normalized wave observation (server.ts lines 114-118). -/
structure WaveData where
  t : Int
  Hs_m : ℝ
  Tp_s : Option ℝ

/-- Normalized precipitation summary (server.ts lines 120-123). -/
structure PrecipData where
  last72h_mm : ℝ
  windowed_mm : List (Int × ℝ)

/-- Per-(site, hour) penalty breakdown (server.ts lines 126-132). -/
structure ScoreComponents where
  wind : ℝ
  onshore : ℝ
  tideFlow : ℝ
  rain : ℝ
  swell : ℝ

/-- One entry of the forecast table (server.ts lines 134-138). -/
structure ForecastPoint where
  t : Int
  score : ℝ
  components : ScoreComponents

/-- Return value of `calculateClarityScore` (server.ts line 451). -/
structure ScoreResult where
  score : ℝ
  components : ScoreComponents

/-- The static site registry (server.ts lines 161-198), first entry. -/
def stoneyBeach : Site :=
  { id := "stoney-beach", lat := 41.5297, lon := -70.6609,
    shorelineBearingTowardShore := 315, exposure := 0.35 }

/-- The static site registry, second entry. -/
def devilsFoot : Site :=
  { id := "devils-foot", lat := 41.5156, lon := -70.6445,
    shorelineBearingTowardShore := 90, exposure := 0.7 }

/-- The static site registry, third entry. -/
def greatHarbor : Site :=
  { id := "great-harbor", lat := 41.5234, lon := -70.6712,
    shorelineBearingTowardShore := 45, exposure := 0.25 }

/-- The static site registry, fourth entry. -/
def nonamessetSide : Site :=
  { id := "nonamesset-side", lat := 41.5089, lon := -70.6234,
    shorelineBearingTowardShore := 140, exposure := 0.6 }

/-- `SITES` (server.ts lines 161-198). -/
def SITES : List Site := [stoneyBeach, devilsFoot, greatHarbor, nonamessetSide]

/-- `clamp(value, min, max) = Math.min(Math.max(value, min), max)`
(server.ts lines 296-298). -/
noncomputable def clamp (value lo hi : ℝ) : ℝ := min (max value lo) hi

/-- `degreesToRadians` (server.ts lines 300-302). -/
noncomputable def degreesToRadians (degrees : ℝ) : ℝ := degrees * Real.pi / 180

/-- `normalizeAngle(d) = ((d % 360) + 360) % 360` (server.ts lines 304-306).
For the positive modulus 360 the JS double-remainder expression computes
exactly the Euclidean remainder `d - 360⌊d/360⌋ ∈ [0, 360)`, which is how we
write it here. -/
noncomputable def normalizeAngle (degrees : ℝ) : ℝ :=
  degrees - 360 * ((⌊degrees / 360⌋ : ℤ) : ℝ)

/-- `calculateOnshoreComponent` (server.ts lines 322-333). -/
noncomputable def calculateOnshoreComponent (windDirDeg windSpeedKt shorelineBearingTowardShore : ℝ) : ℝ :=
  let angleDiff := normalizeAngle (windDirDeg - shorelineBearingTowardShore)
  let angleRad := degreesToRadians angleDiff
  max 0 (windSpeedKt * Real.cos angleRad)

/-- Wind speed penalty `fWindSpeed` (server.ts lines 394-397):
`0` for `speed ≤ 5`, otherwise `(speed − 5)^1.3` (real power). -/
noncomputable def fWindSpeed (speedKnots : ℝ) : ℝ :=
  if speedKnots ≤ 5 then 0 else (speedKnots - 5) ^ (1.3 : ℝ)

/-- Onshore wind penalty `fOnshore` (server.ts lines 403-405). -/
noncomputable def fOnshore (onshoreKnots : ℝ) : ℝ := max 0 onshoreKnots

/-- Tidal flow penalty `fTideFlow` (server.ts lines 411-413). -/
noncomputable def fTideFlow (flowFtPerHr : ℝ) : ℝ := |flowFtPerHr| * 2

/-- Rain penalty `fRain` (server.ts lines 419-421). -/
noncomputable def fRain (mm72h : ℝ) : ℝ := clamp (mm72h / 3) 0 20

/-- Swell penalty `fSwell` (server.ts lines 427-431).  The period
multiplier condition is the JS truthiness test `TpSeconds && TpSeconds < 7`:
an absent (`undefined`) period and a zero period are both falsy, so the
1.2 multiplier applies only to a present, nonzero period below 7 s. -/
noncomputable def fSwell (HsMeters : ℝ) (TpSeconds : Option ℝ) : ℝ :=
  let basePenalty := HsMeters * 10
  let periodMultiplier : ℝ :=
    match TpSeconds with
    | some p => if p ≠ 0 ∧ p < 7 then 1.2 else 1
    | none => 1
  basePenalty * periodMultiplier

/-- `calculateClarityScore` (server.ts lines 445-495).  The source starts
from an all-zero components record and overwrites the wind/onshore fields
when `windData` is non-null and the swell field when `waveData` is
non-null; the tideFlow and rain fields are always set.  The global mutable
`weights` is passed explicitly. -/
noncomputable def calculateClarityScore (weights : Weights) (site : Site)
    (windData : Option WindData) (tideFlow rain72h : ℝ)
    (waveData : Option WaveData) : ScoreResult :=
  let windComp : ℝ :=
    match windData with
    | some wd => fWindSpeed wd.wind_speed_kt
    | none => 0
  let onshoreComp : ℝ :=
    match windData with
    | some wd =>
        fOnshore (calculateOnshoreComponent wd.wind_dir_deg wd.wind_speed_kt
          site.shorelineBearingTowardShore)
    | none => 0
  let swellComp : ℝ :=
    match waveData with
    | some wv => fSwell wv.Hs_m wv.Tp_s * site.exposure
    | none => 0
  let components : ScoreComponents :=
    { wind := windComp, onshore := onshoreComp, tideFlow := fTideFlow tideFlow,
      rain := fRain rain72h, swell := swellComp }
  let totalPenalty : ℝ :=
    weights.wWind * components.wind + weights.wOnshore * components.onshore +
      weights.wTideFlow * components.tideFlow + weights.wRain * components.rain +
      weights.wSwell * components.swell
  { score := clamp (100 - totalPenalty) 0 100, components := components }

/-- Stormglass-specific cache with rate limiting (server.ts lines 235-240,
260-265).  `lastResetDate` models the stored `YYYY-MM-DD` day string: two
clock instants map to the same marker exactly when they fall on the same
UTC day, so the marker is modelled by an abstract day number. -/
structure StormglassCache where
  data : Option WaveData
  lastFetchedAt : Option Int
  requestsToday : Nat
  lastResetDate : Int

/-- Default `STORMGLASS_CACHE_HOURS` (server.ts line 61). -/
def STORMGLASS_CACHE_HOURS : Int := 3

/-- Default `STORMGLASS_MAX_DAILY_REQUESTS` (server.ts line 62). -/
def STORMGLASS_MAX_DAILY_REQUESTS : Nat := 8

/-- `resetDailyRequestCountIfNeeded` (server.ts lines 346-353); `today` is
the current day marker (`new Date().toISOString().split('T')[0]`). -/
def resetDailyRequestCountIfNeeded (today : Int) (c : StormglassCache) : StormglassCache :=
  if c.lastResetDate ≠ today then
    { c with requestsToday := 0, lastResetDate := today }
  else c

/-- `isStormglassCacheValid` (server.ts lines 355-364): false when there is
no cached value or no fetch timestamp; otherwise fresh iff the cache age in
hours, `(now − cachedAt)/3600000`, is below `cacheHours` — equivalently
`now − cachedAt < cacheHours · 3600000`. -/
def isStormglassCacheValid (cacheHours now : Int) (c : StormglassCache) : Bool :=
  match c.data, c.lastFetchedAt with
  | some _, some fetchedAt => decide (now - fetchedAt < cacheHours * 3600000)
  | _, _ => false

/-- `canFetchStormglassData` (server.ts lines 366-369): runs the daily
reset, then compares the counter with the ceiling.  Returns the updated
cache state (the source mutates the global) together with the decision. -/
def canFetchStormglassData (maxDaily : Nat) (today : Int) (c : StormglassCache) :
    StormglassCache × Bool :=
  let c1 := resetDailyRequestCountIfNeeded today c
  (c1, decide (c1.requestsToday < maxDaily))

/-- Result of one `fetchWaveData` call: the returned value, the cache state
after the call, and whether a live network request was issued. -/
structure FetchOutcome where
  result : Option WaveData
  cache : StormglassCache
  networkCalled : Bool

/-- Outcome of the network interaction inside `fetchWaveData`'s try block
(server.ts lines 714-757): `ok w` — `await fetch` resolved and the payload
parsed to wave data `w`; `badResponse` — `await fetch` resolved (so the
counter increment on line 730 ran) but the response was non-2xx, its body
failed to parse, or the `hours` array was missing or empty, all of which
throw after the increment; `transportError` — the `fetch` promise itself
rejected (DNS failure, refused connection, dropped socket), so control
reached the catch block before the increment line ran. -/
inductive FetchResult where
  | ok : WaveData → FetchResult
  | badResponse : FetchResult
  | transportError : FetchResult

/-- `fetchWaveData` (server.ts lines 696-769).  `keyConfigured` models the
`STORMGLASS_API_KEY` guard.  The counter is incremented immediately after
`await fetch` resolves and before the response is interpreted, so a bad
or malformed response still passes through the incremented state, while a
transport-level rejection of the fetch itself skips the increment; in
both failure cases the catch block falls back to the cached value when
one exists. -/
def fetchWaveData (keyConfigured : Bool) (cacheHours : Int) (maxDaily : Nat)
    (now today : Int) (c : StormglassCache) (fetchResult : FetchResult) : FetchOutcome :=
  if keyConfigured = false then
    { result := none, cache := c, networkCalled := false }
  else if isStormglassCacheValid cacheHours now c then
    { result := c.data, cache := c, networkCalled := false }
  else
    let gate := canFetchStormglassData maxDaily today c
    if gate.2 = false then
      { result := gate.1.data, cache := gate.1, networkCalled := false }
    else
      match fetchResult with
      | FetchResult.transportError =>
          { result := gate.1.data, cache := gate.1, networkCalled := true }
      | FetchResult.badResponse =>
          let charged : StormglassCache :=
            { gate.1 with requestsToday := gate.1.requestsToday + 1 }
          { result := charged.data, cache := charged, networkCalled := true }
      | FetchResult.ok waveData =>
          let charged : StormglassCache :=
            { gate.1 with requestsToday := gate.1.requestsToday + 1 }
          { result := some waveData,
            cache := { charged with data := some waveData, lastFetchedAt := some now },
            networkCalled := true }

/-- The `/health` handler's Stormglass status block (server.ts lines
957-983): it calls `resetDailyRequestCountIfNeeded()` before reporting
`requestsToday`. -/
def healthStormglassRequests (today : Int) (c : StormglassCache) : Nat × StormglassCache :=
  let c1 := resetDailyRequestCountIfNeeded today c
  (c1.requestsToday, c1)

/-- The `GET /raw/waves` handler's cache block (server.ts lines 1160-1173):
it reports `stormglassCache.requestsToday` directly, without calling
`resetDailyRequestCountIfNeeded()` first. -/
def rawWavesStormglassRequests (c : StormglassCache) : Nat × StormglassCache :=
  (c.requestsToday, c)

/-- Concrete wave observation with a zero period, the input at which the
claimed swell formula diverges from the code. -/
def zeroPeriodWave : WaveData := { t := 0, Hs_m := 1, Tp_s := some 0 }


/-- `generateHourlyTimestamps` (server.ts lines 336-343): hourly steps of
3600000 ms starting at `startDate` itself — the start time is used as-is,
with no truncation to the hour. -/
def generateHourlyTimestamps (startDate : Int) (hours : Nat) : List Int :=
  (List.range hours).map fun i : Nat => startDate + (i : Int) * 3600000

/-- Association-list lookup modelling JS object indexing `obj[t]` for the
timestamp-keyed dictionaries. -/
def lookupKey {α : Type} (t : Int) : List (Int × α) → Option α
  | [] => none
  | (k, v) :: rest => if k = t then some v else lookupKey t rest

/-- Association-list lookup modelling `cache.scoreBySiteByTime[siteId]`. -/
def lookupSiteKey {α : Type} (siteId : String) : List (String × α) → Option α
  | [] => none
  | (k, v) :: rest => if k = siteId then some v else lookupSiteKey siteId rest

/-- `computeForecastTable` (server.ts lines 800-831), with the cache fields
it reads passed explicitly.  `now` is `new Date()` at rebuild time, at
millisecond precision.  For each site and each generated timestamp it
stores one `ForecastPoint` computed from the single current snapshot, the
tide flow looked up per timestamp (`cache.tideFlowPerTimestamp[timestamp]
|| 0`) and the 72 h rain total (`cache.precipSummary72h?.last72h_mm || 0`). -/
noncomputable def computeForecastTable (weights : Weights) (now : Int) (hours : Nat)
    (tideFlowPerTimestamp : List (Int × ℝ)) (windLatest : Option WindData)
    (precipSummary72h : Option PrecipData) (wavesLatest : Option WaveData) :
    List (String × List (Int × ForecastPoint)) :=
  let timestamps := generateHourlyTimestamps now hours
  SITES.map fun site =>
    (site.id, timestamps.map fun timestamp =>
      let tideFlow : ℝ := (lookupKey timestamp tideFlowPerTimestamp).getD 0
      let rain72h : ℝ :=
        match precipSummary72h with
        | some p => p.last72h_mm
        | none => 0
      let result := calculateClarityScore weights site windLatest tideFlow rain72h wavesLatest
      (timestamp, { t := timestamp, score := result.score, components := result.components }))

/-- One ranked window produced by `findBestWindows` (server.ts lines
836-856).  The source's field `end` is a reserved word in Lean and is
called `stop` here. -/
structure BestWindow where
  start : Int
  stop : Int
  avgScore : ℝ

/-- The ordering of `windows.sort((a, b) => b.avgScore - a.avgScore)`:
element `a` may precede `b` exactly when the comparator is non-positive,
i.e. when `b.avgScore ≤ a.avgScore`.  `Array.prototype.sort` is required
by the language standard to be stable, so the call is modelled by a stable
insertion sort under this relation. -/
def windowBefore (a b : BestWindow) : Prop := b.avgScore ≤ a.avgScore

noncomputable instance : DecidableRel windowBefore := fun a b =>
  Real.decidableLE b.avgScore a.avgScore

instance : IsTotal BestWindow windowBefore :=
  ⟨fun a b => le_total b.avgScore a.avgScore⟩

instance : IsTrans BestWindow windowBefore :=
  ⟨fun _ _ _ h1 h2 => le_trans h2 h1⟩

/-- The sorted, truncated key list of `findBestWindows` (server.ts line
840): `Object.keys(siteData).sort().slice(0, hours)`.  Sorting the ISO
keys lexicographically is sorting the modelled millisecond keys
numerically. -/
noncomputable def sortedTimestamps (siteData : List (Int × ForecastPoint))
    (hours : Nat) : List Int :=
  (List.insertionSort (fun a b : Int => a ≤ b) (siteData.map Prod.fst)).take hours

/-- The loop body of `findBestWindows` (server.ts lines 843-853) at start
index `i`: the window covers the `windowSizeHours` consecutive timestamps
`timestamps.slice(i, i + windowSizeHours)`, its scores are
`siteData[t]?.score || 0`, and its average is rounded to one decimal
(`Math.round(avgScore * 10) / 10`, JS half-up rounding, which is
Mathlib's `round`). -/
noncomputable def windowAt (siteData : List (Int × ForecastPoint)) (ts : List Int)
    (windowSizeHours i : Nat) : BestWindow :=
  let windowTimestamps := (ts.drop i).take windowSizeHours
  let scores :=
    windowTimestamps.map fun t => ((lookupKey t siteData).map ForecastPoint.score).getD 0
  let avgScore := scores.sum / (scores.length : ℝ)
  { start := windowTimestamps.headD 0,
    stop := windowTimestamps.getLastD 0,
    avgScore := ((round (avgScore * 10) : ℤ) : ℝ) / 10 }

/-- The window-enumeration loop of `findBestWindows` (server.ts lines
843-853): one candidate window per start index `i` with
`0 ≤ i ≤ timestamps.length − windowSizeHours`. -/
noncomputable def slidingWindows (siteData : List (Int × ForecastPoint))
    (hours windowSizeHours : Nat) : List BestWindow :=
  let timestamps := sortedTimestamps siteData hours
  (List.range (timestamps.length + 1 - windowSizeHours)).map
    (windowAt siteData timestamps windowSizeHours)

/-- `findBestWindows` (server.ts lines 836-856): empty for a site id with
no forecast entry, otherwise the enumerated windows sorted by descending
average score with JS's stable sort. -/
noncomputable def findBestWindows (table : List (String × List (Int × ForecastPoint)))
    (siteId : String) (hours windowSizeHours : Nat) : List BestWindow :=
  match lookupSiteKey siteId table with
  | none => []
  | some siteData =>
      List.insertionSort windowBefore (slidingWindows siteData hours windowSizeHours)

/-- The spec-side window at start index `i`: identical to `windowAt`
except that the mean is taken over the window size itself. -/
noncomputable def specWindowAt (siteData : List (Int × ForecastPoint)) (ts : List Int)
    (windowSizeHours i : Nat) : BestWindow :=
  let windowTimestamps := (ts.drop i).take windowSizeHours
  let scores :=
    windowTimestamps.map fun t => ((lookupKey t siteData).map ForecastPoint.score).getD 0
  { start := windowTimestamps.headD 0,
    stop := windowTimestamps.getLastD 0,
    avgScore := ((round ((scores.sum / (windowSizeHours : ℝ)) * 10) : ℤ) : ℝ) / 10 }

/-- Modelled from the spec (§4.5) for the refinement half of claim C5: the
enumeration of every contiguous window of `windowSizeHours` consecutive
timestamps within the first `hours` available timestamps, each carrying
the rounded mean of its `windowSizeHours` scores. -/
noncomputable def specContiguousWindows (siteData : List (Int × ForecastPoint))
    (hours windowSizeHours : Nat) : List BestWindow :=
  let timestamps := sortedTimestamps siteData hours
  (List.range (timestamps.length + 1 - windowSizeHours)).map
    (specWindowAt siteData timestamps windowSizeHours)

/-- Concrete wave observation used by the gate witnesses. -/
def exWave : WaveData := { t := 0, Hs_m := 2, Tp_s := some 8 }

/-- Gate state fetched at time 0 with 3 of 8 daily requests used. -/
def freshCache : StormglassCache :=
  { data := some exWave, lastFetchedAt := some 0, requestsToday := 3, lastResetDate := 0 }

/-- Gate state fetched at time 0 with the daily quota exhausted. -/
def throttledCache : StormglassCache :=
  { data := some exWave, lastFetchedAt := some 0, requestsToday := 8, lastResetDate := 0 }

/-- Gate state carrying 5 requests recorded under day marker 0, examined
after the clock has moved to day 1. -/
def staleMarkerCache : StormglassCache :=
  { data := none, lastFetchedAt := none, requestsToday := 5, lastResetDate := 0 }

/-- A forecast point with the given score and an all-zero breakdown, for
the ranker witnesses. -/
noncomputable def exPoint (timestamp : Int) (score : ℝ) : ForecastPoint :=
  { t := timestamp, score := score,
    components := { wind := 0, onshore := 0, tideFlow := 0, rain := 0, swell := 0 } }

/-- Site forecast data with hourly scores 10, 90, 10, 90 — the spec's §8
ranker example. -/
noncomputable def exSiteData : List (Int × ForecastPoint) :=
  [(0, exPoint 0 10), (3600000, exPoint 3600000 90),
   (7200000, exPoint 7200000 10), (10800000, exPoint 10800000 90)]

/-- Site id of the ranker example table. -/
def exSiteId : String := "stoney-beach"

/-- A one-site forecast table for the ranker witnesses. -/
noncomputable def exTable : List (String × List (Int × ForecastPoint)) :=
  [(exSiteId, exSiteData)]

/-- A site id absent from `exTable` and from the site registry. -/
def missingSiteId : String := "not-a-site"

/-- Lower bound of `clamp`. -/
theorem le_clamp (v lo hi : ℝ) (h : lo ≤ hi) : lo ≤ clamp v lo hi :=
  le_min (le_max_right v lo) h

/-- Upper bound of `clamp`. -/
theorem clamp_le (v lo hi : ℝ) : clamp v lo hi ≤ hi :=
  min_le_right _ _

/-- Claim C1: for every site, every wind observation (possibly null), every
tide-flow magnitude, every 72-hour rain total, every wave observation
(possibly null) and the current weights, `calculateClarityScore` returns a
score equal to `clamp(100 − weighted sum of the five component penalties,
0, 100)`, and this score always lies in [0, 100]. -/
theorem calculateClarityScore_clamped_weighted_sum (weights : Weights) (site : Site)
    (windData : Option WindData) (tideFlow rain72h : ℝ) (waveData : Option WaveData) :
    (calculateClarityScore weights site windData tideFlow rain72h waveData).score =
      clamp (100 -
        (weights.wWind *
            (calculateClarityScore weights site windData tideFlow rain72h waveData).components.wind +
          weights.wOnshore *
            (calculateClarityScore weights site windData tideFlow rain72h waveData).components.onshore +
          weights.wTideFlow *
            (calculateClarityScore weights site windData tideFlow rain72h waveData).components.tideFlow +
          weights.wRain *
            (calculateClarityScore weights site windData tideFlow rain72h waveData).components.rain +
          weights.wSwell *
            (calculateClarityScore weights site windData tideFlow rain72h waveData).components.swell))
        0 100 ∧
    0 ≤ (calculateClarityScore weights site windData tideFlow rain72h waveData).score ∧
    (calculateClarityScore weights site windData tideFlow rain72h waveData).score ≤ 100 :=
  ⟨rfl, le_clamp _ 0 100 (by norm_num), clamp_le _ 0 100⟩

/-- Claim C6: the wind penalty is 0 at or below the 5-knot threshold,
equals `(s − 5)^1.3` above it, is strictly positive just past the
threshold, and is strictly increasing for speeds above 5 knots. -/
theorem fWindSpeed_threshold_monotone :
    (∀ s : ℝ, s ≤ 5 → fWindSpeed s = 0) ∧
    (∀ s : ℝ, 5 < s → fWindSpeed s = (s - 5) ^ (1.3 : ℝ)) ∧
    fWindSpeed 5 = 0 ∧
    (∀ ε : ℝ, 0 < ε → 0 < fWindSpeed (5 + ε)) ∧
    (∀ s t : ℝ, 5 < s → s < t → fWindSpeed s < fWindSpeed t) := by
  have hle : ∀ s : ℝ, s ≤ 5 → fWindSpeed s = 0 := fun s hs => if_pos hs
  have hgt : ∀ s : ℝ, 5 < s → fWindSpeed s = (s - 5) ^ (1.3 : ℝ) := fun s hs =>
    if_neg (not_le.mpr hs)
  refine ⟨hle, hgt, hle 5 le_rfl, ?_, ?_⟩
  · intro ε hε
    rw [hgt (5 + ε) (by linarith), add_sub_cancel_left]
    exact Real.rpow_pos_of_pos hε _
  · intro s t hs hst
    rw [hgt s hs, hgt t (hs.trans hst)]
    exact Real.rpow_lt_rpow (by linarith) (by linarith) (by norm_num)

/-- Witness for C6 at concrete speeds 4, 6 and 7 knots. -/
theorem fWindSpeed_threshold_monotone_witness :
    ((4 : ℝ) ≤ 5 ∧ fWindSpeed 4 = 0) ∧
    (5 < (6 : ℝ) ∧ fWindSpeed 6 = ((6 : ℝ) - 5) ^ (1.3 : ℝ)) ∧
    (0 < (1 : ℝ) ∧ 0 < fWindSpeed (5 + 1)) ∧
    (5 < (6 : ℝ) ∧ (6 : ℝ) < 7 ∧ fWindSpeed 6 < fWindSpeed 7) :=
  ⟨⟨by norm_num, fWindSpeed_threshold_monotone.1 4 (by norm_num)⟩,
   ⟨by norm_num, fWindSpeed_threshold_monotone.2.1 6 (by norm_num)⟩,
   ⟨by norm_num, fWindSpeed_threshold_monotone.2.2.2.1 1 (by norm_num)⟩,
   ⟨by norm_num, by norm_num,
     fWindSpeed_threshold_monotone.2.2.2.2 6 7 (by norm_num) (by norm_num)⟩⟩

/-- Counterexample to claim C7 as stated: for the wave observation with
height 1 m and period 0 s, the claimed swell component
`Hs · 10 · (1.2 if Tp < 7 else 1.0) · exposure = 1 · 10 · 1.2 · 0.35`
differs from what the code computes (a zero period is JS-falsy, so the
code applies multiplier 1.0 and yields `10 · 0.35 = 3.5`, not `4.2`). -/
theorem swell_claim_false_at_zero_period :
    ¬ ((calculateClarityScore defaultWeights stoneyBeach none 0 0
          (some zeroPeriodWave)).components.swell =
        1 * 10 * 1.2 * stoneyBeach.exposure) := by
  simp only [calculateClarityScore, fSwell, zeroPeriodWave, stoneyBeach]
  norm_num

/-- Claim C7 (amended): for a non-null wave observation the swell component
equals `Hs · 10 · m · exposure` where the multiplier `m` is 1.2 exactly
when the period is present, nonzero and below 7 s (the JS truthiness test
`TpSeconds && TpSeconds < 7` makes a zero period fall back to multiplier
1.0), and 1.0 otherwise; for a null wave observation the swell component
is 0. -/
theorem swell_component_formula (weights : Weights) (site : Site)
    (windData : Option WindData) (tideFlow rain72h : ℝ) :
    ((calculateClarityScore weights site windData tideFlow rain72h none).components.swell = 0) ∧
    (∀ Hs : ℝ, ∀ tt : Int,
      (calculateClarityScore weights site windData tideFlow rain72h
          (some { t := tt, Hs_m := Hs, Tp_s := none })).components.swell =
        Hs * 10 * site.exposure) ∧
    (∀ Hs p : ℝ, ∀ tt : Int, p ≠ 0 → p < 7 →
      (calculateClarityScore weights site windData tideFlow rain72h
          (some { t := tt, Hs_m := Hs, Tp_s := some p })).components.swell =
        Hs * 10 * 1.2 * site.exposure) ∧
    (∀ Hs p : ℝ, ∀ tt : Int, p = 0 ∨ 7 ≤ p →
      (calculateClarityScore weights site windData tideFlow rain72h
          (some { t := tt, Hs_m := Hs, Tp_s := some p })).components.swell =
        Hs * 10 * site.exposure) := by
  refine ⟨by cases windData <;> rfl, ?_, ?_, ?_⟩
  · intro Hs tt
    show fSwell Hs none * site.exposure = Hs * 10 * site.exposure
    simp [fSwell]
  · intro Hs p tt hp0 hp7
    show fSwell Hs (some p) * site.exposure = Hs * 10 * 1.2 * site.exposure
    simp only [fSwell, if_pos (And.intro hp0 hp7)]
  · intro Hs p tt hp
    show fSwell Hs (some p) * site.exposure = Hs * 10 * site.exposure
    have hcond : ¬ (p ≠ 0 ∧ p < 7) := by
      rcases hp with h | h
      · exact fun hc => hc.1 h
      · exact fun hc => absurd hc.2 (not_lt.mpr h)
    simp only [fSwell, if_neg hcond, mul_one]

/-- Witness for C7 (amended) at concrete inputs: a null wave, a wave with
no period, a wave with period 5 s, and a wave with period 0 s. -/
theorem swell_component_formula_witness :
    ((calculateClarityScore defaultWeights stoneyBeach none 0 0 none).components.swell = 0) ∧
    ((calculateClarityScore defaultWeights stoneyBeach none 0 0
        (some { t := 0, Hs_m := 2, Tp_s := none })).components.swell =
      2 * 10 * stoneyBeach.exposure) ∧
    ((5 : ℝ) ≠ 0 ∧ (5 : ℝ) < 7 ∧
      (calculateClarityScore defaultWeights stoneyBeach none 0 0
          (some { t := 0, Hs_m := 2, Tp_s := some 5 })).components.swell =
        2 * 10 * 1.2 * stoneyBeach.exposure) ∧
    (((0 : ℝ) = 0 ∨ 7 ≤ (0 : ℝ)) ∧
      (calculateClarityScore defaultWeights stoneyBeach none 0 0
          (some { t := 0, Hs_m := 2, Tp_s := some 0 })).components.swell =
        2 * 10 * stoneyBeach.exposure) :=
  ⟨(swell_component_formula defaultWeights stoneyBeach none 0 0).1,
   (swell_component_formula defaultWeights stoneyBeach none 0 0).2.1 2 0,
   ⟨by norm_num, by norm_num,
     (swell_component_formula defaultWeights stoneyBeach none 0 0).2.2.1 2 5 0
       (by norm_num) (by norm_num)⟩,
   ⟨Or.inl rfl,
     (swell_component_formula defaultWeights stoneyBeach none 0 0).2.2.2 2 0 0
       (Or.inl rfl)⟩⟩

/-- The daily reset never touches the cached data or fetch timestamp. -/
@[simp] theorem resetDaily_data (today : Int) (c : StormglassCache) :
    (resetDailyRequestCountIfNeeded today c).data = c.data := by
  unfold resetDailyRequestCountIfNeeded; split <;> rfl

/-- The daily reset never touches the fetch timestamp. -/
@[simp] theorem resetDaily_lastFetchedAt (today : Int) (c : StormglassCache) :
    (resetDailyRequestCountIfNeeded today c).lastFetchedAt = c.lastFetchedAt := by
  unfold resetDailyRequestCountIfNeeded; split <;> rfl

/-- A fresh cache holds a cached value and a fetch timestamp. -/
theorem isStormglassCacheValid_data (cacheHours now : Int) (c : StormglassCache)
    (h : isStormglassCacheValid cacheHours now c = true) :
    ∃ d, c.data = some d := by
  rcases hd : c.data with _ | d
  · rcases ht : c.lastFetchedAt with _ | t0 <;>
      · unfold isStormglassCacheValid at h
        rw [hd, ht] at h
        exact absurd h (by simp)
  · exact ⟨d, rfl⟩

/-- A fresh cache short-circuits `fetchWaveData`: the cached value is
returned, the state is untouched and no network request is made. -/
theorem fetchWaveData_fresh (cacheHours : Int) (maxDaily : Nat) (now today : Int)
    (c : StormglassCache) (fetchResult : FetchResult)
    (hv : isStormglassCacheValid cacheHours now c = true) :
    fetchWaveData true cacheHours maxDaily now today c fetchResult =
      { result := c.data, cache := c, networkCalled := false } := by
  unfold fetchWaveData
  rw [if_neg (by simp), if_pos hv]

/-- Claim C3: the wave-gate return policy.  With the API key configured:
a fresh cache is returned unchanged with no network call and no quota
consumption (and in particular two calls one hour apart under the 3-hour
cache window both return the identical cached value and leave the counter
unchanged); a stale cache with exhausted quota yields the last cached
value, whatever its age, without consuming quota; and a failed fetch —
whether the fetch promise rejects or the response is bad — falls back to
the last cached value instead of failing the caller. -/
theorem fetchWaveData_return_policy (cacheHours : Int) (maxDaily : Nat)
    (now today : Int) (c : StormglassCache) (fetchResult : FetchResult) :
    (isStormglassCacheValid cacheHours now c = true →
      fetchWaveData true cacheHours maxDaily now today c fetchResult =
        { result := c.data, cache := c, networkCalled := false } ∧
      ∃ d, c.data = some d) ∧
    (isStormglassCacheValid cacheHours now c = false →
      maxDaily ≤ (resetDailyRequestCountIfNeeded today c).requestsToday →
      (fetchWaveData true cacheHours maxDaily now today c fetchResult).result = c.data ∧
      (fetchWaveData true cacheHours maxDaily now today c fetchResult).networkCalled = false ∧
      (fetchWaveData true cacheHours maxDaily now today c fetchResult).cache.requestsToday =
        (resetDailyRequestCountIfNeeded today c).requestsToday) ∧
    (isStormglassCacheValid cacheHours now c = false →
      (resetDailyRequestCountIfNeeded today c).requestsToday < maxDaily →
      fetchResult = FetchResult.transportError ∨ fetchResult = FetchResult.badResponse →
      (fetchWaveData true cacheHours maxDaily now today c fetchResult).result = c.data ∧
      (fetchWaveData true cacheHours maxDaily now today c fetchResult).networkCalled = true) ∧
    (∀ d : WaveData, ∀ t0 : Int, c.data = some d → c.lastFetchedAt = some t0 →
      now - t0 < 2 * 3600000 →
      (fetchWaveData true 3 maxDaily now today c fetchResult).result = some d ∧
      (fetchWaveData true 3 maxDaily now today c fetchResult).cache = c ∧
      (fetchWaveData true 3 maxDaily now today c fetchResult).networkCalled = false ∧
      (fetchWaveData true 3 maxDaily (now + 3600000) today c fetchResult).result = some d ∧
      (fetchWaveData true 3 maxDaily (now + 3600000) today c fetchResult).cache = c ∧
      (fetchWaveData true 3 maxDaily (now + 3600000) today c fetchResult).networkCalled = false) := by
  refine ⟨?_, ?_, ?_, ?_⟩
  · intro hv
    exact ⟨fetchWaveData_fresh cacheHours maxDaily now today c fetchResult hv,
      isStormglassCacheValid_data cacheHours now c hv⟩
  · intro hv hq
    have hgate : (canFetchStormglassData maxDaily today c).2 = false := by
      unfold canFetchStormglassData
      simpa using not_lt.mpr hq
    unfold fetchWaveData
    rw [if_neg (by simp), if_neg (by simp [hv]), if_pos hgate]
    exact ⟨resetDaily_data today c, rfl, rfl⟩
  · intro hv hq hf
    have hgate : (canFetchStormglassData maxDaily today c).2 = true := by
      unfold canFetchStormglassData
      simpa using hq
    unfold fetchWaveData
    rw [if_neg (by simp), if_neg (by simp [hv]), if_neg (by simp [hgate])]
    rcases hf with rfl | rfl
    · exact ⟨resetDaily_data today c, rfl⟩
    · exact ⟨resetDaily_data today c, rfl⟩
  · intro d t0 hd ht0 hage
    have hv1 : isStormglassCacheValid 3 now c = true := by
      unfold isStormglassCacheValid
      rw [hd, ht0]
      simp only [decide_eq_true_eq]
      linarith
    have hv2 : isStormglassCacheValid 3 (now + 3600000) c = true := by
      unfold isStormglassCacheValid
      rw [hd, ht0]
      simp only [decide_eq_true_eq]
      linarith
    have h1 := fetchWaveData_fresh 3 maxDaily now today c fetchResult hv1
    have h2 := fetchWaveData_fresh 3 maxDaily (now + 3600000) today c fetchResult hv2
    rw [h1, h2]
    exact ⟨hd, rfl, rfl, hd, rfl, rfl⟩

/-- Witness for C3 at concrete gate states: a fresh cache at 1 h of age
(two calls, one hour apart, both served from cache), a stale cache with
exhausted quota, and a stale cache whose live fetch fails — both by the
fetch promise rejecting and by a bad response. -/
theorem fetchWaveData_return_policy_witness :
    (isStormglassCacheValid 3 3600000 freshCache = true ∧
      fetchWaveData true 3 8 3600000 0 freshCache FetchResult.transportError =
        { result := freshCache.data, cache := freshCache, networkCalled := false }) ∧
    (isStormglassCacheValid 3 14400000 throttledCache = false ∧
      8 ≤ (resetDailyRequestCountIfNeeded 0 throttledCache).requestsToday ∧
      (fetchWaveData true 3 8 14400000 0 throttledCache FetchResult.transportError).result =
        throttledCache.data ∧
      (fetchWaveData true 3 8 14400000 0 throttledCache FetchResult.transportError).networkCalled =
        false ∧
      (fetchWaveData true 3 8 14400000 0 throttledCache FetchResult.transportError).cache.requestsToday =
        (resetDailyRequestCountIfNeeded 0 throttledCache).requestsToday) ∧
    (isStormglassCacheValid 3 14400000 freshCache = false ∧
      (resetDailyRequestCountIfNeeded 0 freshCache).requestsToday < 8 ∧
      (fetchWaveData true 3 8 14400000 0 freshCache FetchResult.transportError).result =
        freshCache.data ∧
      (fetchWaveData true 3 8 14400000 0 freshCache FetchResult.transportError).networkCalled =
        true ∧
      (fetchWaveData true 3 8 14400000 0 freshCache FetchResult.badResponse).result =
        freshCache.data ∧
      (fetchWaveData true 3 8 14400000 0 freshCache FetchResult.badResponse).networkCalled =
        true) ∧
    (freshCache.data = some exWave ∧ freshCache.lastFetchedAt = some 0 ∧
      (3600000 : Int) - 0 < 2 * 3600000 ∧
      (fetchWaveData true 3 8 3600000 0 freshCache FetchResult.transportError).result =
        some exWave ∧
      (fetchWaveData true 3 8 3600000 0 freshCache FetchResult.transportError).cache =
        freshCache ∧
      (fetchWaveData true 3 8 3600000 0 freshCache FetchResult.transportError).networkCalled =
        false ∧
      (fetchWaveData true 3 8 (3600000 + 3600000) 0 freshCache FetchResult.transportError).result =
        some exWave ∧
      (fetchWaveData true 3 8 (3600000 + 3600000) 0 freshCache FetchResult.transportError).cache =
        freshCache ∧
      (fetchWaveData true 3 8 (3600000 + 3600000) 0 freshCache
          FetchResult.transportError).networkCalled = false) := by
  have h1 := fetchWaveData_return_policy 3 8 3600000 0 freshCache FetchResult.transportError
  have h2 := fetchWaveData_return_policy 3 8 14400000 0 throttledCache FetchResult.transportError
  have h3 := fetchWaveData_return_policy 3 8 14400000 0 freshCache FetchResult.transportError
  have h4 := fetchWaveData_return_policy 3 8 14400000 0 freshCache FetchResult.badResponse
  obtain ⟨hta, htb⟩ := h3.2.2.1 (by decide) (by decide) (Or.inl rfl)
  obtain ⟨hba, hbb⟩ := h4.2.2.1 (by decide) (by decide) (Or.inr rfl)
  refine ⟨⟨by decide, (h1.1 (by decide)).1⟩,
    ⟨by decide, by decide, h2.2.1 (by decide) (by decide)⟩,
    ⟨by decide, by decide, hta, htb, hba, hbb⟩, ?_⟩
  obtain ⟨ha, hb, hc, hd, he, hf⟩ := h1.2.2.2 exWave 0 rfl rfl (by decide)
  exact ⟨rfl, rfl, by decide, ha, hb, hc, hd, he, hf⟩

/-- The daily reset never increases the stored counter. -/
theorem resetDaily_requestsToday_le (today : Int) (c : StormglassCache) :
    (resetDailyRequestCountIfNeeded today c).requestsToday ≤ c.requestsToday := by
  unfold resetDailyRequestCountIfNeeded
  split
  · exact Nat.zero_le _
  · exact le_rfl

/-- Branch analysis of `fetchWaveData`: whenever a live fetch happens the
checked counter was below the ceiling, and the resulting counter is the
checked value plus one when a response arrived (`ok` or `badResponse`)
and the checked value itself on a transport-level rejection; the ceiling
is preserved in every branch. -/
theorem fetchWaveData_outcome (keyConfigured : Bool) (cacheHours : Int)
    (maxDaily : Nat) (now today : Int) (c : StormglassCache) (fetchResult : FetchResult) :
    ((fetchWaveData keyConfigured cacheHours maxDaily now today c fetchResult).networkCalled = true →
      (resetDailyRequestCountIfNeeded today c).requestsToday < maxDaily) ∧
    ((fetchWaveData keyConfigured cacheHours maxDaily now today c fetchResult).networkCalled = true →
      (fetchWaveData keyConfigured cacheHours maxDaily now today c fetchResult).cache.requestsToday =
        (match fetchResult with
         | FetchResult.transportError => (resetDailyRequestCountIfNeeded today c).requestsToday
         | FetchResult.badResponse => (resetDailyRequestCountIfNeeded today c).requestsToday + 1
         | FetchResult.ok _ => (resetDailyRequestCountIfNeeded today c).requestsToday + 1)) ∧
    (c.requestsToday ≤ maxDaily →
      (fetchWaveData keyConfigured cacheHours maxDaily now today c fetchResult).cache.requestsToday ≤
        maxDaily) := by
  unfold fetchWaveData
  by_cases hkey : keyConfigured = false
  · rw [if_pos hkey]
    exact ⟨fun h => absurd h (by simp), fun h => absurd h (by simp), fun h => h⟩
  · rw [if_neg hkey]
    by_cases hv : isStormglassCacheValid cacheHours now c
    · rw [if_pos hv]
      exact ⟨fun h => absurd h (by simp), fun h => absurd h (by simp), fun h => h⟩
    · rw [if_neg hv]
      by_cases hq : (resetDailyRequestCountIfNeeded today c).requestsToday < maxDaily
      · rw [if_neg (by simp [canFetchStormglassData, hq])]
        cases fetchResult with
        | ok w => exact ⟨fun _ => hq, fun _ => rfl, fun _ => Nat.succ_le_of_lt hq⟩
        | badResponse => exact ⟨fun _ => hq, fun _ => rfl, fun _ => Nat.succ_le_of_lt hq⟩
        | transportError =>
            exact ⟨fun _ => hq, fun _ => rfl,
              fun h => le_trans (resetDaily_requestsToday_le today c) h⟩
      · rw [if_pos (by simp [canFetchStormglassData, hq])]
        exact ⟨fun h => absurd h (by simp), fun h => absurd h (by simp),
          fun h => le_trans (resetDaily_requestsToday_le today c) h⟩

/-- Counterexample to claim C4 as stated: at a stale cache with 3 of 8
daily requests used, a live fetch is attempted but the fetch promise
rejects at the transport level — the source reaches the catch block
before the increment on server.ts line 730 runs, so this live fetch
attempt consumes no quota unit, contradicting "every live fetch attempt
increments the counter exactly once". -/
theorem transport_error_skips_increment :
    (fetchWaveData true 3 8 14400000 0 freshCache FetchResult.transportError).networkCalled =
      true ∧
    (resetDailyRequestCountIfNeeded 0 freshCache).requestsToday = 3 ∧
    (fetchWaveData true 3 8 14400000 0 freshCache FetchResult.transportError).cache.requestsToday =
      3 ∧
    ¬ ((fetchWaveData true 3 8 14400000 0 freshCache
          FetchResult.transportError).cache.requestsToday =
        (resetDailyRequestCountIfNeeded 0 freshCache).requestsToday + 1) :=
  ⟨by decide, by decide, by decide, by decide⟩

/-- Claim C4 (amended): quota accounting for the wave gate.  A live fetch
is attempted only when the counter checked against the current window is
below the ceiling; every live fetch attempt that receives a response
increments the counter exactly once, before the response is interpreted —
a non-2xx or malformed response still consumes one quota unit — while a
transport-level rejection of the fetch itself leaves the counter
unchanged (the increment on server.ts line 730 sits after `await fetch`);
and a counter that respects the ceiling still respects it after the
call. -/
theorem fetchWaveData_quota_accounting_amended (keyConfigured : Bool) (cacheHours : Int)
    (maxDaily : Nat) (now today : Int) (c : StormglassCache) (fetchResult : FetchResult) :
    ((fetchWaveData keyConfigured cacheHours maxDaily now today c fetchResult).networkCalled = true →
      (resetDailyRequestCountIfNeeded today c).requestsToday < maxDaily) ∧
    (∀ w : WaveData,
      (fetchWaveData keyConfigured cacheHours maxDaily now today c
          (FetchResult.ok w)).networkCalled = true →
      (fetchWaveData keyConfigured cacheHours maxDaily now today c
          (FetchResult.ok w)).cache.requestsToday =
        (resetDailyRequestCountIfNeeded today c).requestsToday + 1) ∧
    ((fetchWaveData keyConfigured cacheHours maxDaily now today c
        FetchResult.badResponse).networkCalled = true →
      (fetchWaveData keyConfigured cacheHours maxDaily now today c
          FetchResult.badResponse).cache.requestsToday =
        (resetDailyRequestCountIfNeeded today c).requestsToday + 1) ∧
    ((fetchWaveData keyConfigured cacheHours maxDaily now today c
        FetchResult.transportError).networkCalled = true →
      (fetchWaveData keyConfigured cacheHours maxDaily now today c
          FetchResult.transportError).cache.requestsToday =
        (resetDailyRequestCountIfNeeded today c).requestsToday) ∧
    (c.requestsToday ≤ maxDaily →
      (fetchWaveData keyConfigured cacheHours maxDaily now today c fetchResult).cache.requestsToday ≤
        maxDaily) := by
  refine ⟨(fetchWaveData_outcome keyConfigured cacheHours maxDaily now today c fetchResult).1,
    ?_, ?_, ?_,
    (fetchWaveData_outcome keyConfigured cacheHours maxDaily now today c fetchResult).2.2⟩
  · intro w hcall
    exact (fetchWaveData_outcome keyConfigured cacheHours maxDaily now today c
      (FetchResult.ok w)).2.1 hcall
  · intro hcall
    exact (fetchWaveData_outcome keyConfigured cacheHours maxDaily now today c
      FetchResult.badResponse).2.1 hcall
  · intro hcall
    exact (fetchWaveData_outcome keyConfigured cacheHours maxDaily now today c
      FetchResult.transportError).2.1 hcall

/-- Witness for C4 (amended) at a stale cache with 3 of 8 requests used:
a successful fetch and a bad response both move the counter to exactly 4,
a transport-level rejection leaves it at 3, and the ceiling holds. -/
theorem fetchWaveData_quota_accounting_amended_witness :
    ((fetchWaveData true 3 8 14400000 0 freshCache FetchResult.badResponse).networkCalled =
        true ∧
      (resetDailyRequestCountIfNeeded 0 freshCache).requestsToday < 8) ∧
    ((fetchWaveData true 3 8 14400000 0 freshCache (FetchResult.ok exWave)).networkCalled =
        true ∧
      (fetchWaveData true 3 8 14400000 0 freshCache
          (FetchResult.ok exWave)).cache.requestsToday =
        (resetDailyRequestCountIfNeeded 0 freshCache).requestsToday + 1) ∧
    ((fetchWaveData true 3 8 14400000 0 freshCache
        FetchResult.badResponse).cache.requestsToday =
      (resetDailyRequestCountIfNeeded 0 freshCache).requestsToday + 1) ∧
    ((fetchWaveData true 3 8 14400000 0 freshCache
        FetchResult.transportError).cache.requestsToday =
      (resetDailyRequestCountIfNeeded 0 freshCache).requestsToday) ∧
    (freshCache.requestsToday ≤ 8 ∧
      (fetchWaveData true 3 8 14400000 0 freshCache
          FetchResult.badResponse).cache.requestsToday ≤ 8) :=
  ⟨⟨by decide,
    (fetchWaveData_quota_accounting_amended true 3 8 14400000 0 freshCache
      FetchResult.badResponse).1 (by decide)⟩,
   ⟨by decide,
    (fetchWaveData_quota_accounting_amended true 3 8 14400000 0 freshCache
      FetchResult.badResponse).2.1 exWave (by decide)⟩,
   (fetchWaveData_quota_accounting_amended true 3 8 14400000 0 freshCache
      FetchResult.badResponse).2.2.1 (by decide),
   (fetchWaveData_quota_accounting_amended true 3 8 14400000 0 freshCache
      FetchResult.badResponse).2.2.2.1 (by decide),
   ⟨by decide,
    (fetchWaveData_quota_accounting_amended true 3 8 14400000 0 freshCache
      FetchResult.badResponse).2.2.2.2 (by decide)⟩⟩

/-- Claim C9 (amended): the day-boundary reset runs inside the gate
(`canFetchStormglassData`) and on the `/health` status path, so after a
day change those paths read a counter of 0 and an updated marker; the
`GET /raw/waves` debug path reads the counter without the reset check and
reports the stored value unchanged. -/
theorem dailyReset_on_gate_and_health (maxDaily : Nat) (today : Int) (c : StormglassCache)
    (h : c.lastResetDate ≠ today) :
    (canFetchStormglassData maxDaily today c).1.requestsToday = 0 ∧
    (canFetchStormglassData maxDaily today c).1.lastResetDate = today ∧
    (healthStormglassRequests today c).1 = 0 ∧
    (rawWavesStormglassRequests c).1 = c.requestsToday ∧
    (rawWavesStormglassRequests c).2 = c := by
  have hr : resetDailyRequestCountIfNeeded today c =
      { c with requestsToday := 0, lastResetDate := today } := if_pos h
  refine ⟨?_, ?_, ?_, rfl, rfl⟩
  · show (resetDailyRequestCountIfNeeded today c).requestsToday = 0
    rw [hr]
  · show (resetDailyRequestCountIfNeeded today c).lastResetDate = today
    rw [hr]
  · show (resetDailyRequestCountIfNeeded today c).requestsToday = 0
    rw [hr]

/-- Witness for C9 (amended): crossing from day 0 to day 1 with 5 requests
recorded — the gate and `/health` paths read 0, the `/raw/waves` path
still reads 5. -/
theorem dailyReset_on_gate_and_health_witness :
    (staleMarkerCache.lastResetDate ≠ (1 : Int)) ∧
    ((canFetchStormglassData 8 1 staleMarkerCache).1.requestsToday = 0 ∧
      (canFetchStormglassData 8 1 staleMarkerCache).1.lastResetDate = 1 ∧
      (healthStormglassRequests 1 staleMarkerCache).1 = 0 ∧
      (rawWavesStormglassRequests staleMarkerCache).1 = staleMarkerCache.requestsToday ∧
      (rawWavesStormglassRequests staleMarkerCache).2 = staleMarkerCache) :=
  ⟨by decide, dailyReset_on_gate_and_health 8 1 staleMarkerCache (by decide)⟩

/-- Counterexample to claim C9 as stated: with 5 requests recorded under
day marker 0 and the clock now on day 1, the `GET /raw/waves` status path
reads the counter without running the reset check and reports 5 — not the
0 the claim requires on the first check after a day boundary — and leaves
the stale marker in place (the reset, had it run as on the other paths,
would have produced 0). -/
theorem rawWaves_reports_stale_counter :
    staleMarkerCache.lastResetDate = 0 ∧ ((0 : Int) = 1 → False) ∧
    (rawWavesStormglassRequests staleMarkerCache).1 = 5 ∧
    ¬ ((rawWavesStormglassRequests staleMarkerCache).1 = 0) ∧
    (resetDailyRequestCountIfNeeded 1 staleMarkerCache).requestsToday = 0 ∧
    (rawWavesStormglassRequests staleMarkerCache).2 = staleMarkerCache :=
  ⟨rfl, by decide, rfl, by decide, by decide, rfl⟩

/-- Claim C8: for the registry sites and a requested horizon of `hours`,
`computeForecastTable` always produces exactly one row per registry site,
in registry order, each holding exactly one entry per generated timestamp
— `hours` distinct, never-duplicated timestamps — regardless of which
upstream sources are unavailable (the snapshot arguments range over
arbitrary values, including null wind, null rain, null waves and an empty
tide-flow series), for a total of exactly `SITES.length × hours` forecast
entries. -/
theorem computeForecastTable_complete (weights : Weights) (now : Int) (hours : Nat)
    (tideFlowPerTimestamp : List (Int × ℝ)) (windLatest : Option WindData)
    (precipSummary72h : Option PrecipData) (wavesLatest : Option WaveData) :
    (computeForecastTable weights now hours tideFlowPerTimestamp windLatest
        precipSummary72h wavesLatest).map Prod.fst = SITES.map Site.id ∧
    (computeForecastTable weights now hours tideFlowPerTimestamp windLatest
        precipSummary72h wavesLatest).map (fun row => row.2.map Prod.fst) =
      List.replicate SITES.length (generateHourlyTimestamps now hours) ∧
    (generateHourlyTimestamps now hours).length = hours ∧
    (generateHourlyTimestamps now hours).Nodup ∧
    (SITES.map Site.id).Nodup ∧
    ((computeForecastTable weights now hours tideFlowPerTimestamp windLatest
        precipSummary72h wavesLatest).map (fun row => row.2.length)).sum =
      SITES.length * hours := by
  refine ⟨?_, ?_, ?_, ?_, ?_, ?_⟩
  · simp [computeForecastTable, Function.comp_def, List.map_map]
  · simp [computeForecastTable, Function.comp_def, List.map_map, List.map_const']
  · unfold generateHourlyTimestamps
    rw [List.length_map, List.length_range]
  · unfold generateHourlyTimestamps
    refine List.Nodup.map ?_ (List.nodup_range hours)
    intro i j hij
    have h1 : (i : Int) * 3600000 = (j : Int) * 3600000 := by
      have := add_left_cancel hij
      exact this
    have h2 : (i : Int) = (j : Int) := by
      exact mul_right_cancel₀ (by norm_num) h1
    exact_mod_cast h2
  · decide
  · have hrows : (computeForecastTable weights now hours tideFlowPerTimestamp windLatest
        precipSummary72h wavesLatest).map (fun row => row.2.length) =
        List.replicate SITES.length hours := by
      simp [computeForecastTable, Function.comp_def, List.map_map, List.map_const', generateHourlyTimestamps]
    rw [hrows, List.sum_replicate, smul_eq_mul]

/-- Claim C2 is violated by the code (code bug): `computeForecastTable`
keys every ForecastPoint at `now + i·3600000` with `now = new Date()`
taken at millisecond precision — `generateHourlyTimestamps` never
truncates to the hour.  Evaluated at the concrete rebuild instant
1970-01-01T00:30:00.000Z (epoch ms 1800000) with a 1-hour horizon, every
site's single forecast timestamp is 1800000, which is not hour-aligned
(1800000 mod 3600000 = 1800000 ≠ 0).  The `/now` handler builds its
lookup key by hour truncation (`slice(0, 13) + ':00:00.000Z'`, server.ts
line 1003), so it can never hit such keys — the spec's "truncated to the
hour" invariant is the evident intent and the builder fails it. -/
theorem forecast_timestamps_not_hour_truncated :
    (computeForecastTable defaultWeights 1800000 1 [] none none none).map
        (fun row => row.2.map Prod.fst) =
      [[1800000], [1800000], [1800000], [1800000]] ∧
    ¬ ((1800000 : Int) % 3600000 = 0) ∧
    generateHourlyTimestamps 1800000 1 = [1800000] := by
  refine ⟨?_, by decide, ?_⟩
  · simp [computeForecastTable, generateHourlyTimestamps, SITES, Function.comp_def,
      List.map_map, show List.range 1 = [0] from rfl]
  · simp [generateHourlyTimestamps, show List.range 1 = [0] from rfl]

/-- The head of a window of size at least 1 starting at a valid index `i`
is the `i`-th timestamp. -/
theorem window_headD_eq_getD (ts : List Int) (w i : Nat) (hw : 1 ≤ w)
    (hi : i < ts.length) :
    ((ts.drop i).take w).headD 0 = ts.getD i 0 := by
  obtain ⟨w1, rfl⟩ : ∃ w1, w = w1 + 1 := ⟨w - 1, (Nat.succ_pred_eq_of_pos hw).symm⟩
  rw [List.drop_eq_getElem_cons hi, List.take_succ_cons, List.headD_cons,
    List.getD_eq_getElem _ _ hi]

/-- The starts of the enumerated windows are chronologically
non-decreasing: windows are generated left to right over sorted
timestamps. -/
theorem slidingWindows_pairwise_start (siteData : List (Int × ForecastPoint))
    (hours w : Nat) (hw : 1 ≤ w) :
    (slidingWindows siteData hours w).Pairwise fun a b => a.start ≤ b.start := by
  unfold slidingWindows
  rw [List.pairwise_map]
  have hsorted : (sortedTimestamps siteData hours).Pairwise fun a b : Int => a ≤ b :=
    (List.sorted_insertionSort _ _).sublist (List.take_sublist _ _)
  refine List.pairwise_iff_get.mpr ?_
  intro i j hij
  have hi : (i : Nat) < (sortedTimestamps siteData hours).length + 1 - w := by
    have := i.isLt
    simpa using this
  have hj : (j : Nat) < (sortedTimestamps siteData hours).length + 1 - w := by
    have := j.isLt
    simpa using this
  have hi2 : (i : Nat) < (sortedTimestamps siteData hours).length := by omega
  have hj2 : (j : Nat) < (sortedTimestamps siteData hours).length := by omega
  have hstart : ∀ k : Nat, k < (sortedTimestamps siteData hours).length →
      (windowAt siteData (sortedTimestamps siteData hours) w k).start =
        (sortedTimestamps siteData hours).getD k 0 := by
    intro k hk
    unfold windowAt
    exact window_headD_eq_getD _ w k hw hk
  simp only [List.get_eq_getElem, List.getElem_range]
  rw [hstart _ hi2, hstart _ hj2, List.getD_eq_get _ _ hi2, List.getD_eq_get _ _ hj2]
  exact List.pairwise_iff_get.mp hsorted ⟨i, hi2⟩ ⟨j, hj2⟩ hij

/-- Inserting a window that ties only with windows it chronologically
precedes keeps the tie-order invariant. -/
theorem pairwise_tie_orderedInsert (x : BestWindow) (l : List BestWindow)
    (hx : ∀ b ∈ l, x.avgScore = b.avgScore → x.start ≤ b.start)
    (hl : l.Pairwise fun a b => a.avgScore = b.avgScore → a.start ≤ b.start) :
    (List.orderedInsert windowBefore x l).Pairwise
      fun a b => a.avgScore = b.avgScore → a.start ≤ b.start := by
  induction l with
  | nil => simp
  | cons y l ih =>
    rw [List.orderedInsert]
    by_cases h : windowBefore x y
    · rw [if_pos h]
      exact List.Pairwise.cons hx hl
    · rw [if_neg h]
      refine List.Pairwise.cons ?_ ?_
      · intro b hb
        rcases (List.mem_orderedInsert windowBefore).mp hb with rfl | hbl
        · intro heq
          exact absurd (le_of_eq heq) h
        · exact (List.pairwise_cons.mp hl).1 b hbl
      · exact ih (fun b hb => hx b (List.mem_cons_of_mem y hb))
          (List.pairwise_cons.mp hl).2

/-- The insertion sort used to model the (stable) JS sort preserves the
tie-order invariant of its chronological input. -/
theorem pairwise_tie_insertionSort (l : List BestWindow)
    (hl : l.Pairwise fun a b => a.avgScore = b.avgScore → a.start ≤ b.start) :
    (List.insertionSort windowBefore l).Pairwise
      fun a b => a.avgScore = b.avgScore → a.start ≤ b.start := by
  induction l with
  | nil => simp
  | cons x l ih =>
    rw [List.insertionSort]
    refine pairwise_tie_orderedInsert x _ ?_ (ih (List.pairwise_cons.mp hl).2)
    intro b hb
    exact (List.pairwise_cons.mp hl).1 b ((List.mem_insertionSort windowBefore).mp hb)

/-- Inside the enumerated index range, every window covers exactly
`windowSizeHours` timestamps, so the code's mean over `scores.length`
equals the spec's mean over the window size. -/
theorem slidingWindows_eq_spec (siteData : List (Int × ForecastPoint))
    (hours w : Nat) :
    slidingWindows siteData hours w = specContiguousWindows siteData hours w := by
  unfold slidingWindows specContiguousWindows
  refine List.map_congr_left ?_
  intro i hi
  rw [List.mem_range] at hi
  simp only [windowAt, specWindowAt]
  have hlen : (List.map (fun t => ((lookupKey t siteData).map ForecastPoint.score).getD 0)
      (((sortedTimestamps siteData hours).drop i).take w)).length = w := by
    rw [List.length_map, List.length_take, List.length_drop]
    omega
  rw [hlen]

/-- Claim C5: for every site present in the forecast table, every
requested hour count and every window size of at least one hour,
`findBestWindows` returns a permutation of the spec-side enumeration of
all contiguous windows of that size among the first `hours` available
timestamps (never a window past the available range), sorted descending
by average score, with ties broken by earliest start time. -/
theorem findBestWindows_enumeration_sorted_stable
    (table : List (String × List (Int × ForecastPoint))) (siteId : String)
    (siteData : List (Int × ForecastPoint)) (hours w : Nat)
    (hlook : lookupSiteKey siteId table = some siteData) (hw : 1 ≤ w) :
    List.Perm (findBestWindows table siteId hours w) (specContiguousWindows siteData hours w) ∧
    (findBestWindows table siteId hours w).Pairwise
      (fun a b => b.avgScore ≤ a.avgScore) ∧
    (findBestWindows table siteId hours w).Pairwise
      (fun a b => a.avgScore = b.avgScore → a.start ≤ b.start) := by
  have hfb : findBestWindows table siteId hours w =
      List.insertionSort windowBefore (slidingWindows siteData hours w) := by
    unfold findBestWindows
    rw [hlook]
  refine ⟨?_, ?_, ?_⟩
  · rw [hfb, ← slidingWindows_eq_spec]
    exact List.perm_insertionSort windowBefore _
  · rw [hfb]
    exact List.sorted_insertionSort windowBefore _
  · rw [hfb]
    refine pairwise_tie_insertionSort _ ?_
    exact (slidingWindows_pairwise_start siteData hours w hw).imp
      fun hab => fun _ => hab

/-- Witness for C5 on the spec's §8 example: scores 10, 90, 10, 90 over
four consecutive hours, window size 2 — all three overlapping windows
average 50.0 and are returned in chronological order. -/
theorem findBestWindows_enumeration_sorted_stable_witness :
    (lookupSiteKey exSiteId exTable = some exSiteData ∧ 1 ≤ 2) ∧
    (List.Perm (findBestWindows exTable exSiteId 4 2) (specContiguousWindows exSiteData 4 2) ∧
      (findBestWindows exTable exSiteId 4 2).Pairwise
        (fun a b => b.avgScore ≤ a.avgScore) ∧
      (findBestWindows exTable exSiteId 4 2).Pairwise
        (fun a b => a.avgScore = b.avgScore → a.start ≤ b.start)) :=
  ⟨⟨rfl, by decide⟩,
    findBestWindows_enumeration_sorted_stable exTable exSiteId exSiteData 4 2 rfl
      (by decide)⟩

/-- Claim C10: for every site id with no entry in the forecast table
(including ids not in the site registry), `findBestWindows` returns the
empty list for every hour count and window size, rather than throwing. -/
theorem findBestWindows_missing_site_empty
    (table : List (String × List (Int × ForecastPoint))) (siteId : String)
    (hours w : Nat) (h : lookupSiteKey siteId table = none) :
    findBestWindows table siteId hours w = [] := by
  unfold findBestWindows
  rw [h]

/-- Witness for C10: a site id absent from the example table (and from
the registry) yields the empty window list. -/
theorem findBestWindows_missing_site_empty_witness :
    lookupSiteKey missingSiteId exTable = none ∧
    findBestWindows exTable missingSiteId 24 2 = [] :=
  ⟨rfl, findBestWindows_missing_site_empty exTable missingSiteId 24 2 rfl⟩

end Clarity
